import Mathlib

/-!
Verification development for the pose-driven 3D photo-gallery controller
(Photos-Wall-3D). The TypeScript source is shallowly embedded: numbers are
modelled as exact rationals (`ℚ`) where the code is pure arithmetic and as
reals (`ℝ`) where it uses transcendental functions (`acos`, `sin`, `cos`,
`sqrt` of π-multiples); JS arrays become `List`s, `undefined`/optional
fields become `Option`, and the one place the code can throw (property
access on `undefined`) is an explicit `error` constructor of a result type.
-/

/-- One MediaPipe pose landmark: normalized 2D coordinates plus an optional
visibility score (the `visibility` field may be absent on the raw record). -/
structure Landmark where
  x : ℚ
  y : ℚ
  visibility : Option ℚ
deriving DecidableEq, Repr

/-- Embedding of `detectArmsSpread` (src/unnamed/part_000).

The source computes `shoulderWidth = sqrt((ls.x-rs.x)^2 + (ls.y-rs.y)^2)`
and tests `|lw.x - rw.x| > shoulderWidth * 2.0`.  Both sides of that
comparison are nonnegative reals, so it is equivalent to the square-free
comparison `|lw.x - rw.x|^2 > shoulderWidthSq * 2.0^2` used here, which is
exact over `ℚ` (for `a, b ≥ 0`, `a > b ↔ a^2 > b^2`). Everything else is
a literal transcription: the `< 17` length guard returning `false`, and
the elevation check with absolute tolerance `0.15`. -/
def detectArmsSpread (landmarks : List Landmark) : Bool :=
  if h : landmarks.length < 17 then false
  else
    have h11 : 11 < landmarks.length := by omega
    have h12 : 12 < landmarks.length := by omega
    have h15 : 15 < landmarks.length := by omega
    have h16 : 16 < landmarks.length := by omega
    let leftShoulder := landmarks.get ⟨11, h11⟩
    let rightShoulder := landmarks.get ⟨12, h12⟩
    let leftWrist := landmarks.get ⟨15, h15⟩
    let rightWrist := landmarks.get ⟨16, h16⟩
    let shoulderWidthSq : ℚ :=
      (leftShoulder.x - rightShoulder.x) ^ 2 + (leftShoulder.y - rightShoulder.y) ^ 2
    let wristDistanceX : ℚ := |leftWrist.x - rightWrist.x|
    let isWide := decide (wristDistanceX ^ 2 > shoulderWidthSq * (2.0 : ℚ) ^ 2)
    let areWristsElevated :=
      decide (leftWrist.y < leftShoulder.y + 0.15) &&
      decide (rightWrist.y < rightShoulder.y + 0.15)
    isWide && areWristsElevated

/-- Embedding of `getCenterOffset` (src/unnamed/part_000): average the
torso landmarks (indices 11, 12, 23, 24) that are present (`if
(landmarks[idx])` — absent indices are skipped and do not count toward the
denominator), then rescale `[0,1]` to `[-1,1]`.  The `!landmarks ||
landmarks.length === 0` guard is modelled by the length test (callers in
this repository never pass a null array). -/
def getCenterOffset (landmarks : List Landmark) : ℚ × ℚ :=
  if landmarks.length = 0 then (0, 0)
  else
    let relevantIndices : List ℕ := [11, 12, 23, 24]
    let acc := relevantIndices.foldl
      (fun (acc : ℚ × ℚ × ℕ) idx =>
        match landmarks[idx]? with
        | some lm => (acc.1 + lm.x, acc.2.1 + lm.y, acc.2.2 + 1)
        | none => acc)
      (0, 0, 0)
    if acc.2.2 = 0 then (0, 0)
    else ((acc.1 / (acc.2.2 : ℚ) - 0.5) * 2, (acc.2.1 / (acc.2.2 : ℚ) - 0.5) * 2)

/-- Uniform scaling of one landmark by factor `s` around anchor `a`
(the transform quantified over in the scale-invariance claim). -/
def scaleLandmark (s : ℚ) (a : ℚ × ℚ) (lm : Landmark) : Landmark :=
  ⟨a.1 + s * (lm.x - a.1), a.2 + s * (lm.y - a.2), lm.visibility⟩

/-- Uniform scaling of a whole landmark array around anchor `a`. -/
def scaleLandmarks (s : ℚ) (a : ℚ × ℚ) (l : List Landmark) : List Landmark :=
  l.map (scaleLandmark s a)

/-- A gallery item (`PhotoItem` in src/types.ts). -/
structure PhotoItem where
  id : String
  url : String
deriving DecidableEq, Repr

/-- The mutable focus state owned by the App component
(src/unnamed/part_002): the `focusedId` React state and the
`lastFocusTime` ref (milliseconds, as produced by `Date.now()`). -/
structure FocusState where
  focusedId : Option String
  lastFocusTime : Int
deriving DecidableEq, Repr

/-- Outcome of one call to `triggerRandomFocus`, mirroring its control
flow exactly.
* `rejected s` — the guard `focusedId || now - lastFocusTime < 5000`
  returned early; the state `s` is untouched and no timer is scheduled.
* `triggered s releaseAt` — the trigger was accepted: `s` has the new
  `lastFocusTime` and `focusedId`, and `setTimeout` scheduled the
  auto-release for wall-clock instant `releaseAt` (= now + 5000).
* `error s` — `photos[randomIndex]` was `undefined` (only possible when
  `photos` is empty), so `selected.id` raised a TypeError; `s` records the
  state at the instant of the throw: `lastFocusTime` has already been
  overwritten, `focusedId` has not. -/
inductive TriggerResult where
  | rejected (s : FocusState)
  | triggered (s : FocusState) (releaseAt : Int)
  | error (s : FocusState)
deriving DecidableEq, Repr

/-- Embedding of `triggerRandomFocus` (src/unnamed/part_002). `now` is
`Date.now()` and `rnd` the value of `Math.random()` (a number in
`[0, 1)`); `randomIndex = Math.floor(rnd * photos.length)`. -/
def triggerRandomFocus (photos : List PhotoItem) (now : Int) (rnd : ℚ)
    (s : FocusState) : TriggerResult :=
  if s.focusedId.isSome ∨ now - s.lastFocusTime < 5000 then .rejected s
  else
    let s1 : FocusState := { s with lastFocusTime := now }
    let randomIndex : ℕ := (⌊rnd * (photos.length : ℚ)⌋).toNat
    match photos[randomIndex]? with
    | some selected => .triggered { s1 with focusedId := some selected.id } (now + 5000)
    | none => .error s1

/-- The body of the auto-release callback scheduled by `triggerRandomFocus`
(`setTimeout(() => setFocusedId(null), 5000)`). -/
def autoRelease (s : FocusState) : FocusState :=
  { s with focusedId := none }

/-- The `PoseData` record of src/types.ts. -/
structure PoseData where
  x : ℚ
  y : ℚ
  isArmsSpread : Bool
  score : ℚ
deriving DecidableEq, Repr

/-- Embedding of the pose-signal part of `onResults`
(src/unnamed/part_002): `results.poseLandmarks` is `none` when the field
is absent; an absent-or-empty landmark array yields `setPose(null)`,
otherwise a fresh `PoseData` is assembled with
`score = results.poseLandmarks[0]?.visibility ?? 0.5`.  The remaining
statements of the source function (the conditional
`triggerRandomFocus()` call and the feedback-canvas drawing) do not
contribute to the produced signal and are modelled where they act — on
the focus state and the 2D canvas respectively. -/
def onResults (poseLandmarks : Option (List Landmark)) : Option PoseData :=
  match poseLandmarks with
  | none => none
  | some landmarks =>
    if landmarks.length = 0 then none
    else
      let offset := getCenterOffset landmarks
      let isArmsSpread := detectArmsSpread landmarks
      some { x := offset.1, y := offset.2, isArmsSpread := isArmsSpread,
             score := ((landmarks[0]?).bind Landmark.visibility).getD 0.5 }

/-- The App-level runtime pieces touched by the unmount cleanup: the
`focusedId` React state, the instant at which a `setTimeout` auto-release
scheduled by `triggerRandomFocus` will fire (if one is pending), and the
two resources the `useEffect` cleanup actually releases. -/
structure AppLifecycle where
  focusedId : Option String
  pendingReleaseAt : Option Int
  poseClosed : Bool
  cameraStopped : Bool
deriving DecidableEq, Repr

/-- Embedding of the `useEffect` cleanup in src/unnamed/part_002
(`return () => { if (poseRef.current) poseRef.current.close(); if
(cameraInstance) cameraInstance.stop?.(); }`): it closes the pose
pipeline and stops the camera, and performs no other action — in
particular it contains no `clearTimeout`, so a pending auto-release
timer survives it untouched. -/
def appCleanup (s : AppLifecycle) : AppLifecycle :=
  { s with poseClosed := true, cameraStopped := true }

/-- The auto-release timer firing at App level: the callback
`() => setFocusedId(null)` contains no disposed-check, so it runs its
state write unconditionally whenever the timer fires. -/
def appTimerFire (s : AppLifecycle) : AppLifecycle :=
  { s with focusedId := none, pendingReleaseAt := none }

/-- Exact-rational stand-in for `THREE.Vector3` as used by the per-frame
animator in src/components/PhotoCard.tsx. -/
structure Vec3 where
  x : ℚ
  y : ℚ
  z : ℚ
deriving DecidableEq, Repr

/-- `THREE.Vector3.lerp(v, alpha)`: componentwise
`this.x += (v.x - this.x) * alpha` — note THREE does not clamp `alpha`. -/
def Vec3.lerp (v target : Vec3) (alpha : ℚ) : Vec3 :=
  ⟨v.x + (target.x - v.x) * alpha,
   v.y + (target.y - v.y) * alpha,
   v.z + (target.z - v.z) * alpha⟩

/-- Squared Euclidean distance between two vectors (exact over `ℚ`;
the Euclidean distance orders pairs of points exactly as this does). -/
def Vec3.distSq (a b : Vec3) : ℚ :=
  (a.x - b.x) ^ 2 + (a.y - b.y) ^ 2 + (a.z - b.z) ^ 2

/-- One frame of the unfocused branch of `PhotoCard`'s `useFrame`
applied to the position:
`meshRef.current.position.lerp(targetPos, delta * 3)`. The unfocused
scale update (`scale.lerp(new THREE.Vector3(1, 1, 1), delta * 3)`) is the
same map with target `(1,1,1)`. -/
def unfocusedPositionStep (pos targetPos : Vec3) (delta : ℚ) : Vec3 :=
  pos.lerp targetPos (delta * 3)

/-- One frame of the focused branch of `PhotoCard`'s `useFrame` applied to
the scale: `meshRef.current.scale.lerp(new THREE.Vector3(4.5, 4.5, 1),
delta * 7)`. -/
def focusedScaleStep (scale : Vec3) (delta : ℚ) : Vec3 :=
  Vec3.lerp scale ⟨4.5, 4.5, 1⟩ (delta * 7)

/-- `n` repeated frames of the unfocused position update with identical
inputs (constant target and constant frame delta). -/
def unfocusedPositionIter (pos targetPos : Vec3) (delta : ℚ) : ℕ → Vec3
  | 0 => pos
  | n + 1 => unfocusedPositionStep (unfocusedPositionIter pos targetPos delta n) targetPos delta

/-- Real-valued 3D vector (the `THREE.Vector3` values used by the layout
code in src/unnamed/part_001). -/
structure Vec3R where
  x : ℝ
  y : ℝ
  z : ℝ

/-- `phi` of the spherical spiral in `cardData` (src/unnamed/part_001):
`Math.acos(-1 + (2 * i) / count)`. -/
noncomputable def cardPhi (count i : ℕ) : ℝ :=
  Real.arccos (-1 + (2 * i) / count)

/-- `theta` of the spherical spiral: `Math.sqrt(count * Math.PI) * phi`. -/
noncomputable def cardTheta (count i : ℕ) : ℝ :=
  Real.sqrt (count * Real.pi) * cardPhi count i

/-- The Cartesian position `cardData` assigns to item `i` of `count`
(`radius` is the constant 10 in the source):
`x = radius*cos(theta)*sin(phi)`, `y = radius*sin(theta)*sin(phi)`,
`z = radius*cos(phi)`. -/
noncomputable def cardPosition (count i : ℕ) (radius : ℝ) : Vec3R :=
  ⟨radius * Real.cos (cardTheta count i) * Real.sin (cardPhi count i),
   radius * Real.sin (cardTheta count i) * Real.sin (cardPhi count i),
   radius * Real.cos (cardPhi count i)⟩

/-- `THREE.Vector3.crossVectors`. -/
def cross3 (a b : Vec3R) : Vec3R :=
  ⟨a.y * b.z - a.z * b.y, a.z * b.x - a.x * b.z, a.x * b.y - a.y * b.x⟩

/-- Squared length of a `Vec3R` (`THREE.Vector3.lengthSq`). -/
def lengthSq3 (v : Vec3R) : ℝ :=
  v.x ^ 2 + v.y ^ 2 + v.z ^ 2

/-- `THREE.Vector3.normalize`: divide by the Euclidean length.  (Every
call below is guarded so the length is nonzero, matching the guards in
`Matrix4.lookAt`.) -/
noncomputable def normalize3 (v : Vec3R) : Vec3R :=
  let len := Real.sqrt (lengthSq3 v)
  ⟨v.x / len, v.y / len, v.z / len⟩

/-- The orthonormal basis built by `THREE.Matrix4.lookAt(eye, target,
up)` — the full rotational content of the matrix; transcribed branch for
branch (degenerate `z`, `up` parallel to `z`).  Returned as the column
triple `(x, y, z)`. -/
noncomputable def lookAtBasis (eye target up : Vec3R) : Vec3R × Vec3R × Vec3R :=
  let z0 : Vec3R := ⟨eye.x - target.x, eye.y - target.y, eye.z - target.z⟩
  let z1 : Vec3R := if lengthSq3 z0 = 0 then ⟨z0.x, z0.y, 1⟩ else z0
  let z2 := normalize3 z1
  let x0 := cross3 up z2
  let zx : Vec3R × Vec3R :=
    if lengthSq3 x0 = 0 then
      let z3 : Vec3R :=
        if |up.z| = 1 then ⟨z2.x + 0.0001, z2.y, z2.z⟩ else ⟨z2.x, z2.y, z2.z + 0.0001⟩
      let z4 := normalize3 z3
      (z4, cross3 up z4)
    else (z2, x0)
  let x2 := normalize3 zx.2
  let y2 := cross3 zx.1 x2
  (x2, y2, zx.1)

/-- The orientation `cardData` assigns to item `i`: the dummy
`Object3D` sits at the item's position and calls `lookAt(0, 0, 0)`;
for a non-camera object THREE evaluates
`Matrix4.lookAt(target, position, up)` with `target = (0,0,0)` and the
default `up = (0,1,0)`.  The Euler angles the source then reads off
(`dummy.rotation`) are a fixed function of this basis, so every
determinism statement about the basis transfers to them. -/
noncomputable def cardRotationBasis (count i : ℕ) (radius : ℝ) : Vec3R × Vec3R × Vec3R :=
  lookAtBasis ⟨0, 0, 0⟩ (cardPosition count i radius) ⟨0, 1, 0⟩

/-- Position and orientation of one layout entry (radius 10 as in the
source). -/
noncomputable def cardEntry (count i : ℕ) : Vec3R × (Vec3R × Vec3R × Vec3R) :=
  (cardPosition count i 10, cardRotationBasis count i 10)

/-- Embedding of the `cardData` memo of `PhotoWall`
(src/unnamed/part_001): `photos.map((p, i) => ...)` keeps each photo and
pairs it with the spherical position and look-at-origin orientation
computed from `(i, photos.length)` alone. -/
noncomputable def cardData (photos : List PhotoItem) :
    List (PhotoItem × (Vec3R × (Vec3R × Vec3R × Vec3R))) :=
  photos.enum.map (fun ip => (ip.2, cardEntry photos.length ip.1))

/-- Concrete pose with arms spread and wrists slightly BELOW shoulder
level but within the 0.15 elevation tolerance: shoulders at
`(0.4, 0.5)` / `(0.6, 0.5)`, wrists at `(0.0, 0.6)` / `(1.0, 0.6)`
(indices 11, 12, 15, 16; all other entries are fillers). -/
def wideArmsLandmarks : List Landmark :=
  [⟨0,0,none⟩, ⟨0,0,none⟩, ⟨0,0,none⟩, ⟨0,0,none⟩, ⟨0,0,none⟩, ⟨0,0,none⟩,
   ⟨0,0,none⟩, ⟨0,0,none⟩, ⟨0,0,none⟩, ⟨0,0,none⟩, ⟨0,0,none⟩,
   ⟨0.4,0.5,none⟩, ⟨0.6,0.5,none⟩, ⟨0,0,none⟩, ⟨0,0,none⟩,
   ⟨0.0,0.6,none⟩, ⟨1.0,0.6,none⟩]

/-- Concrete pose with arms spread and wrists strictly ABOVE shoulder
level: shoulders at `(0.4, 0.5)` / `(0.6, 0.5)`, wrists at
`(0.0, 0.45)` / `(1.0, 0.45)`. -/
def raisedArmsLandmarks : List Landmark :=
  [⟨0,0,none⟩, ⟨0,0,none⟩, ⟨0,0,none⟩, ⟨0,0,none⟩, ⟨0,0,none⟩, ⟨0,0,none⟩,
   ⟨0,0,none⟩, ⟨0,0,none⟩, ⟨0,0,none⟩, ⟨0,0,none⟩, ⟨0,0,none⟩,
   ⟨0.4,0.5,none⟩, ⟨0.6,0.5,none⟩, ⟨0,0,none⟩, ⟨0,0,none⟩,
   ⟨0.0,0.45,none⟩, ⟨1.0,0.45,none⟩]

example : detectArmsSpread [] = false := by simp [detectArmsSpread]

example :
    detectArmsSpread
      [⟨0,0,none⟩, ⟨0,0,none⟩, ⟨0,0,none⟩, ⟨0,0,none⟩, ⟨0,0,none⟩, ⟨0,0,none⟩,
       ⟨0,0,none⟩, ⟨0,0,none⟩, ⟨0,0,none⟩, ⟨0,0,none⟩, ⟨0,0,none⟩,
       ⟨0.4,0.5,none⟩, ⟨0.6,0.5,none⟩, ⟨0,0,none⟩, ⟨0,0,none⟩,
       ⟨0.0,0.45,none⟩, ⟨1.0,0.45,none⟩] = true := by
  norm_num [detectArmsSpread]

example : getCenterOffset [] = (0, 0) := by simp [getCenterOffset]

example :
    triggerRandomFocus [⟨"photo-0", "u"⟩] 5000 0 ⟨none, 0⟩ =
      .triggered ⟨some "photo-0", 5000⟩ 10000 := by
  norm_num [triggerRandomFocus]

/-- Helper: `getCenterOffset` returns the neutral offset whenever none of
the torso indices 11, 12, 23, 24 can be present. -/
theorem getCenterOffset_of_lt_12 (l : List Landmark) (h : l.length < 12) :
    getCenterOffset l = (0, 0) := by
  unfold getCenterOffset
  rcases Nat.eq_zero_or_pos l.length with h0 | hpos
  · rw [if_pos h0]
  · rw [if_neg (by omega)]
    have e11 : l[11]? = none := List.getElem?_eq_none (by omega)
    have e12 : l[12]? = none := List.getElem?_eq_none (by omega)
    have e23 : l[23]? = none := List.getElem?_eq_none (by omega)
    have e24 : l[24]? = none := List.getElem?_eq_none (by omega)
    simp [e11, e12, e23, e24]

/-- Claim C2, counterexample to the statement as written: a 13-entry
landmark array (fewer than 17) in which torso indices 11 and 12 are
present at `(0.9, 0.9)`; `getCenterOffset` averages the present torso
indices and returns `(0.8, 0.8)`, not `{0, 0}`. -/
theorem claim_C2_counterexample :
    ([⟨0,0,none⟩, ⟨0,0,none⟩, ⟨0,0,none⟩, ⟨0,0,none⟩, ⟨0,0,none⟩, ⟨0,0,none⟩,
      ⟨0,0,none⟩, ⟨0,0,none⟩, ⟨0,0,none⟩, ⟨0,0,none⟩, ⟨0,0,none⟩,
      ⟨0.9,0.9,none⟩, ⟨0.9,0.9,none⟩] : List Landmark).length < 17 ∧
    getCenterOffset
      [⟨0,0,none⟩, ⟨0,0,none⟩, ⟨0,0,none⟩, ⟨0,0,none⟩, ⟨0,0,none⟩, ⟨0,0,none⟩,
       ⟨0,0,none⟩, ⟨0,0,none⟩, ⟨0,0,none⟩, ⟨0,0,none⟩, ⟨0,0,none⟩,
       ⟨0.9,0.9,none⟩, ⟨0.9,0.9,none⟩] ≠ (0, 0) := by
  constructor
  · norm_num
  · norm_num [getCenterOffset]

/-- Claim C2, amended: for every landmark array with fewer than 17
entries `detectArmsSpread` returns `false`; `getCenterOffset` returns
`{0, 0}` for arrays with fewer than 12 entries (so that none of the
torso indices 11, 12, 23, 24 is present) — with 12 to 16 entries it
averages whichever torso indices are present and may be nonzero.  Both
functions are total (never raise). -/
theorem claim_C2_insufficient_landmarks_amended :
    ∀ l : List Landmark,
      (l.length < 17 → detectArmsSpread l = false) ∧
      (l.length < 12 → getCenterOffset l = (0, 0)) := by
  intro l
  constructor
  · intro h
    unfold detectArmsSpread
    rw [dif_pos h]
  · exact getCenterOffset_of_lt_12 l

/-- Claim C5: a gesture event arriving while an item is focused is
rejected by the guard `focusedId || now - lastFocusTime < 5000`: the
state is returned untouched (`focusedId` keeps its value and
`lastFocusTime` is not updated) and no auto-release timer is scheduled
(the `rejected` constructor carries no `releaseAt`). -/
theorem claim_C5_focused_trigger_is_noop
    (photos : List PhotoItem) (now : Int) (rnd : ℚ) (s : FocusState)
    (id : String) (h : s.focusedId = some id) :
    triggerRandomFocus photos now rnd s = .rejected s := by
  unfold triggerRandomFocus
  rw [if_pos (Or.inl (by simp [h]))]

/-- Witness for claim C5 at a concrete focused state. -/
theorem claim_C5_witness :
    triggerRandomFocus [⟨"photo-0", "u"⟩] 9999 0 ⟨some "photo-7", 0⟩ =
      .rejected ⟨some "photo-7", 0⟩ :=
  claim_C5_focused_trigger_is_noop [⟨"photo-0", "u"⟩] 9999 0 ⟨some "photo-7", 0⟩
    "photo-7" rfl

/-- Claim C1, counterexample to the statement as written: with an empty
collection, a gesture trigger arriving in Idle state after the cooldown
(here `now = 10000`, `lastFocusTime = 0`) is *not* a no-op: it overwrites
`lastFocusTime` and then raises a TypeError (`photos[0]` is `undefined`,
so `selected.id` throws), so the focus state is changed and an error is
raised. -/
theorem claim_C1_counterexample :
    triggerRandomFocus [] 10000 0 ⟨none, 0⟩ = .error ⟨none, 10000⟩ ∧
      (⟨none, 10000⟩ : FocusState) ≠ ⟨none, 0⟩ := by
  constructor
  · norm_num [triggerRandomFocus]
  · simp

/-- Claim C1, amended: with an empty item collection a gesture trigger is
a no-op (state unchanged, nothing scheduled, no error) exactly when the
guard `focusedId || now - lastFocusTime < 5000` rejects it; when the
guard passes, the trigger first overwrites `lastTriggerAt` and then
raises a TypeError without focusing any item. -/
theorem claim_C1_empty_collection_amended :
    ∀ (now : Int) (rnd : ℚ) (s : FocusState),
      ((s.focusedId.isSome ∨ now - s.lastFocusTime < 5000) →
        triggerRandomFocus [] now rnd s = .rejected s) ∧
      (¬(s.focusedId.isSome ∨ now - s.lastFocusTime < 5000) →
        triggerRandomFocus [] now rnd s = .error { s with lastFocusTime := now }) := by
  intro now rnd s
  constructor
  · intro h
    unfold triggerRandomFocus
    rw [if_pos h]
  · intro h
    unfold triggerRandomFocus
    rw [if_neg h]
    simp

/-- Claim C6 (a code bug): evaluating the model at the failing input.  A
controller focused on "photo-3" with an auto-release pending for instant
5000 is torn down; the cleanup closes the pose pipeline and stops the
camera but leaves the auto-release timer pending (the source has no
`clearTimeout` for it), and when that timer later fires its callback
still executes `setFocusedId(null)`, writing the focus state after
disposal. -/
theorem claim_C6_stale_timer_eval :
    (appCleanup ⟨some "photo-3", some 5000, false, false⟩).pendingReleaseAt = some 5000 ∧
    (appCleanup ⟨some "photo-3", some 5000, false, false⟩).poseClosed = true ∧
    (appCleanup ⟨some "photo-3", some 5000, false, false⟩).focusedId = some "photo-3" ∧
    (appTimerFire (appCleanup ⟨some "photo-3", some 5000, false, false⟩)).focusedId = none :=
  ⟨rfl, rfl, rfl, rfl⟩

/-- Helper: `Math.floor(rnd * photos.length)` is a valid index whenever
the collection is nonempty and `rnd < 1` (as `Math.random()` guarantees). -/
theorem floorIndex_lt (len : ℕ) (rnd : ℚ) (hpos : 0 < len) (h1 : rnd < 1) :
    (⌊rnd * (len : ℚ)⌋).toNat < len := by
  have hcast : (0 : ℚ) < (len : ℚ) := by exact_mod_cast hpos
  have hle : rnd * (len : ℚ) < (len : ℚ) := by nlinarith
  have hf : ⌊rnd * (len : ℚ)⌋ < (len : ℤ) := by
    rw [Int.floor_lt]
    push_cast
    exact hle
  omega

/-- Claim C4: cooldown behaviour of the focus state machine.  From Idle
with the cooldown elapsed, a gesture trigger at time `t` is accepted
(producing a Focused state with `lastFocusTime = t` and an auto-release
scheduled for `t + 5000`); a second gesture at `t + 4999` is rejected
with the state unchanged; after the auto-release returns the machine to
Idle, a gesture at `t + 5001` is accepted again and produces a new
Focused state. -/
theorem claim_C4_cooldown
    (photos : List PhotoItem) (t : Int) (rnd : ℚ) (s : FocusState)
    (hIdle : s.focusedId = none) (hcool : 5000 ≤ t - s.lastFocusTime)
    (hr1 : rnd < 1) (hne : photos ≠ []) :
    ∃ id1 : String,
      triggerRandomFocus photos t rnd s = .triggered ⟨some id1, t⟩ (t + 5000) ∧
      triggerRandomFocus photos (t + 4999) rnd ⟨some id1, t⟩ = .rejected ⟨some id1, t⟩ ∧
      ∃ id2 : String,
        triggerRandomFocus photos (t + 5001) rnd (autoRelease ⟨some id1, t⟩) =
          .triggered ⟨some id2, t + 5001⟩ (t + 5001 + 5000) := by
  have hpos : 0 < photos.length := List.length_pos.mpr hne
  have hidx : (⌊rnd * (photos.length : ℚ)⌋).toNat < photos.length :=
    floorIndex_lt photos.length rnd hpos hr1
  refine ⟨(photos.get ⟨_, hidx⟩).id, ?_, ?_, (photos.get ⟨_, hidx⟩).id, ?_⟩
  · unfold triggerRandomFocus
    rw [if_neg (by simp only [hIdle, Option.isSome_none, Bool.false_eq_true, false_or]; omega)]
    dsimp only
    rw [List.getElem?_eq_getElem hidx]
    rfl
  · unfold triggerRandomFocus
    rw [if_pos (Or.inl (by simp))]
  · unfold autoRelease triggerRandomFocus
    rw [if_neg (by simp only [Option.isSome_none, Bool.false_eq_true, false_or]; omega)]
    dsimp only
    rw [List.getElem?_eq_getElem hidx]
    rfl

/-- Witness for claim C4: the cooldown scenario run from the concrete
state `(Idle, lastFocusTime = 0)` with one photo, `t = 5000`,
`rnd = 0`. -/
theorem claim_C4_witness :
    ∃ id1 : String,
      triggerRandomFocus [⟨"photo-0", "u"⟩] 5000 0 ⟨none, 0⟩ =
        .triggered ⟨some id1, 5000⟩ (5000 + 5000) ∧
      triggerRandomFocus [⟨"photo-0", "u"⟩] (5000 + 4999) 0 ⟨some id1, 5000⟩ =
        .rejected ⟨some id1, 5000⟩ ∧
      ∃ id2 : String,
        triggerRandomFocus [⟨"photo-0", "u"⟩] (5000 + 5001) 0 (autoRelease ⟨some id1, 5000⟩) =
          .triggered ⟨some id2, 5000 + 5001⟩ (5000 + 5001 + 5000) :=
  claim_C4_cooldown [⟨"photo-0", "u"⟩] 5000 0 ⟨none, 0⟩ rfl (by norm_num) (by norm_num)
    (by simp)

/-- Claim C3, counterexample to the statement as written: scaling
`wideArmsLandmarks` (a pose the classifier accepts) by the factor 2
around the anchor `(0, 0)` flips the classifier to `false` — the span
condition is normalized by shoulder width, but the `0.15` elevation
tolerance is absolute, so after scaling the wrists sit `0.2` below the
shoulders, outside the tolerance. -/
theorem claim_C3_counterexample :
    (0 : ℚ) < 2 ∧
    wideArmsLandmarks.length = 17 ∧
    detectArmsSpread wideArmsLandmarks = true ∧
    detectArmsSpread (scaleLandmarks 2 (0, 0) wideArmsLandmarks) = false := by
  refine ⟨by norm_num, by norm_num [wideArmsLandmarks], ?_, ?_⟩
  · norm_num [detectArmsSpread, wideArmsLandmarks]
  · norm_num [detectArmsSpread, scaleLandmarks, scaleLandmark, wideArmsLandmarks]

/-- Claim C3, amended: `detectArmsSpread` is scale-invariant on the poses
whose wrists are at or above shoulder level (`y` at most the shoulder's
`y`; MediaPipe `y` grows downward).  For such landmark arrays of length
at least 17, uniformly scaling all coordinates by any positive factor
`s` around any fixed anchor `a` leaves the boolean result unchanged.
(In general the classifier is not scale-invariant: the span condition is
normalized by shoulder width, but the `0.15` elevation tolerance is an
absolute offset — see the counterexample.) -/
theorem claim_C3_scale_invariance_amended
    (l : List Landmark) (s : ℚ) (a : ℚ × ℚ) (h17 : 17 ≤ l.length) (hs : 0 < s)
    (hlw : (l.get ⟨15, by omega⟩).y ≤ (l.get ⟨11, by omega⟩).y)
    (hrw : (l.get ⟨16, by omega⟩).y ≤ (l.get ⟨12, by omega⟩).y) :
    detectArmsSpread (scaleLandmarks s a l) = detectArmsSpread l := by
  have hmap : (scaleLandmarks s a l).length = l.length := by simp [scaleLandmarks]
  unfold detectArmsSpread
  rw [dif_neg (show ¬(scaleLandmarks s a l).length < 17 by rw [hmap]; omega),
    dif_neg (show ¬l.length < 17 by omega)]
  dsimp only
  simp only [List.get_eq_getElem] at hlw hrw
  simp only [List.get_eq_getElem, scaleLandmarks, List.getElem_map, scaleLandmark]
  have h15l : 15 < l.length := by omega
  have h11l : 11 < l.length := by omega
  have h16l : 16 < l.length := by omega
  have h12l : 12 < l.length := by omega
  have e2 : a.2 + s * (l[15].y - a.2) < a.2 + s * (l[11].y - a.2) + 0.15 := by
    nlinarith [mul_nonneg hs.le (sub_nonneg.mpr hlw)]
  have e3 : a.2 + s * (l[16].y - a.2) < a.2 + s * (l[12].y - a.2) + 0.15 := by
    nlinarith [mul_nonneg hs.le (sub_nonneg.mpr hrw)]
  have e2o : l[15].y < l[11].y + 0.15 := by linarith
  have e3o : l[16].y < l[12].y + 0.15 := by linarith
  rw [decide_eq_true e2, decide_eq_true e3, decide_eq_true e2o, decide_eq_true e3o]
  simp only [Bool.and_true]
  rw [show ((2.0 : ℚ) ^ 2 = 4) by norm_num]
  rw [decide_eq_decide]
  rw [sq_abs, sq_abs]
  constructor <;> intro h <;> nlinarith [mul_pos hs hs, h]

/-- Witness for the amended claim C3: scaling the raised-arms pose by 2
around the origin leaves the classifier output unchanged. -/
theorem claim_C3_witness :
    detectArmsSpread (scaleLandmarks 2 (0, 0) raisedArmsLandmarks) =
      detectArmsSpread raisedArmsLandmarks :=
  claim_C3_scale_invariance_amended raisedArmsLandmarks 2 (0, 0)
    (by norm_num [raisedArmsLandmarks]) (by norm_num)
    (by norm_num [raisedArmsLandmarks, List.get])
    (by norm_num [raisedArmsLandmarks, List.get])

/-- Claim C10: `detectArmsSpread` reads only the array length and the
entries at indices 11, 12, 15 and 16 — two arrays of the same length (at
least 17) agreeing at those four indices classify identically, whatever
the other landmarks hold. -/
theorem claim_C10_depends_only_on_key_indices
    (l1 l2 : List Landmark) (hlen : l1.length = l2.length) (h17 : 17 ≤ l1.length)
    (e11 : l1[11]? = l2[11]?) (e12 : l1[12]? = l2[12]?)
    (e15 : l1[15]? = l2[15]?) (e16 : l1[16]? = l2[16]?) :
    detectArmsSpread l1 = detectArmsSpread l2 := by
  unfold detectArmsSpread
  rw [dif_neg (show ¬l1.length < 17 by omega), dif_neg (show ¬l2.length < 17 by omega)]
  dsimp only
  simp only [List.get_eq_getElem]
  have g11 : l1[11] = l2[11] := by
    rw [List.getElem?_eq_getElem (show 11 < l1.length by omega),
      List.getElem?_eq_getElem (show 11 < l2.length by omega)] at e11
    exact Option.some.inj e11
  have g12 : l1[12] = l2[12] := by
    rw [List.getElem?_eq_getElem (show 12 < l1.length by omega),
      List.getElem?_eq_getElem (show 12 < l2.length by omega)] at e12
    exact Option.some.inj e12
  have g15 : l1[15] = l2[15] := by
    rw [List.getElem?_eq_getElem (show 15 < l1.length by omega),
      List.getElem?_eq_getElem (show 15 < l2.length by omega)] at e15
    exact Option.some.inj e15
  have g16 : l1[16] = l2[16] := by
    rw [List.getElem?_eq_getElem (show 16 < l1.length by omega),
      List.getElem?_eq_getElem (show 16 < l2.length by omega)] at e16
    exact Option.some.inj e16
  simp only [g11, g12, g15, g16]

/-- Witness for claim C10: two length-17 arrays that agree at indices
11, 12, 15, 16 but differ everywhere else classify identically. -/
theorem claim_C10_witness :
    detectArmsSpread
      [⟨1,1,some 0.9⟩, ⟨1,1,none⟩, ⟨1,1,none⟩, ⟨1,1,none⟩, ⟨1,1,none⟩, ⟨1,1,none⟩,
       ⟨1,1,none⟩, ⟨1,1,none⟩, ⟨1,1,none⟩, ⟨1,1,none⟩, ⟨1,1,none⟩,
       ⟨0.4,0.5,none⟩, ⟨0.6,0.5,none⟩, ⟨1,1,none⟩, ⟨1,1,none⟩,
       ⟨0.0,0.45,none⟩, ⟨1.0,0.45,none⟩] =
    detectArmsSpread
      [⟨0,0,none⟩, ⟨0,0,none⟩, ⟨0,0,none⟩, ⟨0,0,none⟩, ⟨0,0,none⟩, ⟨0,0,none⟩,
       ⟨0,0,none⟩, ⟨0,0,none⟩, ⟨0,0,none⟩, ⟨0,0,none⟩, ⟨0,0,none⟩,
       ⟨0.4,0.5,none⟩, ⟨0.6,0.5,none⟩, ⟨0,0,none⟩, ⟨0,0,none⟩,
       ⟨0.0,0.45,none⟩, ⟨1.0,0.45,none⟩] :=
  claim_C10_depends_only_on_key_indices _ _ rfl (by norm_num) rfl rfl rfl rfl

/-- Squared distances are nonnegative. -/
theorem distSq_nonneg (a b : Vec3) : 0 ≤ Vec3.distSq a b := by
  simp only [Vec3.distSq]
  positivity

/-- One lerp step scales the squared distance to the target by
`(1 - alpha)^2` exactly. -/
theorem lerp_distSq (p t : Vec3) (alpha : ℚ) :
    Vec3.distSq (Vec3.lerp p t alpha) t = (1 - alpha) ^ 2 * Vec3.distSq p t := by
  simp only [Vec3.lerp, Vec3.distSq]
  ring

/-- For interpolation factors in `[0, 1]` a lerp step never overshoots
its target. -/
theorem lerp_distSq_le (p t : Vec3) (alpha : ℚ) (h0 : 0 ≤ alpha) (h1 : alpha ≤ 1) :
    Vec3.distSq (Vec3.lerp p t alpha) t ≤ Vec3.distSq p t := by
  rw [lerp_distSq]
  have hd := distSq_nonneg p t
  have h2a : (0 : ℚ) ≤ 2 - alpha := by linarith
  nlinarith [mul_nonneg (mul_nonneg hd h0) h2a]

/-- Claim C8, counterexample to the statement as written: THREE's `lerp`
does not clamp its factor, so with the unfocused rate 3 a frame delta of
1 second (a nonnegative delta) gives factor 3 and the position
overshoots: starting at the origin with target `(1,0,0)`, one step lands
at `(3,0,0)`, quadrupling the squared distance to the target. -/
theorem claim_C8_counterexample :
    (0 : ℚ) ≤ 1 ∧
    unfocusedPositionStep ⟨0, 0, 0⟩ ⟨1, 0, 0⟩ 1 = ⟨3, 0, 0⟩ ∧
    Vec3.distSq (unfocusedPositionStep ⟨0, 0, 0⟩ ⟨1, 0, 0⟩ 1) ⟨1, 0, 0⟩ >
      Vec3.distSq (⟨0, 0, 0⟩ : Vec3) ⟨1, 0, 0⟩ := by
  refine ⟨by norm_num, ?_, ?_⟩
  · norm_num [unfocusedPositionStep, Vec3.lerp]
  · norm_num [unfocusedPositionStep, Vec3.lerp, Vec3.distSq]

/-- Claim C8, amended: the interpolation steps of the Transform Animator
do not overshoot and converge monotonically provided the per-frame
factor `delta * rate` lies in `[0, 1]` (rate 3 for the unfocused branch,
7 for the focused branch) — not for *every* nonnegative delta, since
THREE's unclamped `lerp` overshoots once `delta * rate` exceeds 1.  At
the target the step is idempotent for every factor. -/
theorem claim_C8_no_overshoot_amended :
    ∀ (p t : Vec3) (alpha delta : ℚ),
      (0 ≤ alpha → alpha ≤ 1 →
        Vec3.distSq (Vec3.lerp p t alpha) t ≤ Vec3.distSq p t) ∧
      Vec3.lerp t t alpha = t ∧
      (0 ≤ delta → delta * 3 ≤ 1 →
        ∀ n : ℕ,
          Vec3.distSq (unfocusedPositionIter p t delta (n + 1)) t ≤
            Vec3.distSq (unfocusedPositionIter p t delta n) t) ∧
      (0 ≤ delta → delta * 7 ≤ 1 →
        Vec3.distSq (focusedScaleStep p delta) ⟨4.5, 4.5, 1⟩ ≤
          Vec3.distSq p ⟨4.5, 4.5, 1⟩) := by
  intro p t alpha delta
  refine ⟨fun h0 h1 => lerp_distSq_le p t alpha h0 h1, ?_, ?_, ?_⟩
  · simp [Vec3.lerp]
  · intro hd0 hd1 n
    exact lerp_distSq_le (unfocusedPositionIter p t delta n) t (delta * 3)
      (by linarith) hd1
  · intro hd0 hd1
    exact lerp_distSq_le p ⟨4.5, 4.5, 1⟩ (delta * 7) (by linarith) hd1

/-- Witness for the amended claim C8 at concrete inputs (factor 1/2,
frame delta 1/4 — within both admissible ranges). -/
theorem claim_C8_witness :
    ((0 : ℚ) ≤ 1/2 → (1/2 : ℚ) ≤ 1 →
      Vec3.distSq (Vec3.lerp ⟨0, 0, 0⟩ ⟨1, 0, 0⟩ (1/2)) ⟨1, 0, 0⟩ ≤
        Vec3.distSq (⟨0, 0, 0⟩ : Vec3) ⟨1, 0, 0⟩) ∧
    Vec3.lerp ⟨1, 0, 0⟩ ⟨1, 0, 0⟩ (1/2) = ⟨1, 0, 0⟩ ∧
    ((0 : ℚ) ≤ 1/4 → (1/4 : ℚ) * 3 ≤ 1 →
      ∀ n : ℕ,
        Vec3.distSq (unfocusedPositionIter ⟨0, 0, 0⟩ ⟨1, 0, 0⟩ (1/4) (n + 1)) ⟨1, 0, 0⟩ ≤
          Vec3.distSq (unfocusedPositionIter ⟨0, 0, 0⟩ ⟨1, 0, 0⟩ (1/4) n) ⟨1, 0, 0⟩) ∧
    ((0 : ℚ) ≤ 1/4 → (1/4 : ℚ) * 7 ≤ 1 →
      Vec3.distSq (focusedScaleStep ⟨0, 0, 0⟩ (1/4)) ⟨4.5, 4.5, 1⟩ ≤
        Vec3.distSq (⟨0, 0, 0⟩ : Vec3) ⟨4.5, 4.5, 1⟩) :=
  claim_C8_no_overshoot_amended ⟨0, 0, 0⟩ ⟨1, 0, 0⟩ (1/2) (1/4)

/-- Claim C9: the Pose Signal Aggregator maps an absent or empty landmark
set to the null signal; a nonempty set yields exactly the record built
from `getCenterOffset`, `detectArmsSpread`, and landmark 0's visibility
with fallback 0.5 when that visibility is absent. -/
theorem claim_C9_aggregator :
    onResults none = none ∧
    onResults (some []) = none ∧
    (∀ l : List Landmark, l ≠ [] →
      onResults (some l) =
        some { x := (getCenterOffset l).1, y := (getCenterOffset l).2,
               isArmsSpread := detectArmsSpread l,
               score := ((l[0]?).bind Landmark.visibility).getD 0.5 }) ∧
    (∀ (l : List Landmark) (h0 : 0 < l.length),
      ((l.get ⟨0, h0⟩).visibility = none →
        (onResults (some l)).map PoseData.score = some 0.5) ∧
      (∀ v : ℚ, (l.get ⟨0, h0⟩).visibility = some v →
        (onResults (some l)).map PoseData.score = some v)) := by
  refine ⟨rfl, rfl, ?_, ?_⟩
  · intro l hne
    simp only [onResults]
    rw [if_neg (by simpa using hne)]
  · intro l h0
    have hne : l ≠ [] := List.ne_nil_of_length_pos h0
    have hget : l[0]? = some (l.get ⟨0, h0⟩) := by
      rw [List.getElem?_eq_getElem h0]
      rfl
    constructor
    · intro hv
      simp only [onResults]
      rw [if_neg (by simpa using hne)]
      simp only [List.get_eq_getElem] at hv
      simp [hget, hv]
    · intro v hv
      simp only [onResults]
      rw [if_neg (by simpa using hne)]
      simp only [List.get_eq_getElem] at hv
      simp [hget, hv]

/-- The spherical-spiral position always lies on the sphere of the given
radius: the squared coordinates sum to `radius^2` for every item index
and collection size. -/
theorem cardPosition_normSq (count i : ℕ) (radius : ℝ) :
    (cardPosition count i radius).x ^ 2 + (cardPosition count i radius).y ^ 2 +
      (cardPosition count i radius).z ^ 2 = radius ^ 2 := by
  simp only [cardPosition]
  have h1 := Real.sin_sq_add_cos_sq (cardTheta count i)
  have h2 := Real.sin_sq_add_cos_sq (cardPhi count i)
  linear_combination (radius ^ 2 * Real.sin (cardPhi count i) ^ 2) * h1 + radius ^ 2 * h2

/-- The position/orientation part of `cardData` is a function of the
collection length alone: entry `i` is `cardEntry photos.length i`. -/
theorem cardData_snd (photos : List PhotoItem) :
    (cardData photos).map Prod.snd =
      (List.range photos.length).map (cardEntry photos.length) := by
  unfold cardData
  rw [List.map_map, List.enum_eq_zip_range]
  have hcomp :
      (Prod.snd ∘ fun ip : ℕ × PhotoItem => (ip.2, cardEntry photos.length ip.1)) =
        cardEntry photos.length ∘ Prod.fst := rfl
  rw [hcomp, ← List.map_map, List.map_fst_zip]
  simp

/-- Claim C7: with 80 items and radius 10, every layout position lies at
Euclidean distance exactly 10 from the origin (hence within the 1e-6
tolerance), and the layout is deterministic — the positions and
orientations produced by `cardData` depend only on the collection
length, so two computations over collections of the same size agree on
every item's position and orientation. -/
theorem claim_C7_layout :
    (∀ i : ℕ,
      Real.sqrt ((cardPosition 80 i 10).x ^ 2 + (cardPosition 80 i 10).y ^ 2 +
          (cardPosition 80 i 10).z ^ 2) = 10 ∧
      |Real.sqrt ((cardPosition 80 i 10).x ^ 2 + (cardPosition 80 i 10).y ^ 2 +
          (cardPosition 80 i 10).z ^ 2) - 10| ≤ 1 / 1000000) ∧
    (∀ ps qs : List PhotoItem, ps.length = qs.length →
      (cardData ps).map Prod.snd = (cardData qs).map Prod.snd) := by
  constructor
  · intro i
    have he : Real.sqrt ((cardPosition 80 i 10).x ^ 2 + (cardPosition 80 i 10).y ^ 2 +
        (cardPosition 80 i 10).z ^ 2) = 10 := by
      rw [cardPosition_normSq]
      exact Real.sqrt_sq (by norm_num)
    refine ⟨he, ?_⟩
    rw [he]
    norm_num
  · intro ps qs h
    rw [cardData_snd, cardData_snd, h]
